import Mathlib

/-!
Shallow embedding of `src/luxmed_api.py` (the `LuxmedApi` client).

Modelling conventions:
* Parsed JSON documents are the inductive `Json`; `response.json()` is modelled
  by giving each HTTP `Response` an already-parsed `Json` body.
* The HTTP layer (`requests.get`/`requests.post`) is an injected deterministic
  transport `Request → Response` inside an `Env`; every issued request is
  recorded, together with the response it received, in the state `St.trace`.
* `uuid.uuid4()` draws are modelled as a stream `Env.uuid : Nat → String`;
  `St.next` is the index of the next draw, so each call consumes fresh draws.
* The single exception class `LuxmedApiException(payload)` of the source is
  `PyErr.luxmed payload`; structural Python failures (KeyError / TypeError on
  an unexpected JSON shape) are collapsed into `PyErr.structural`.
-/

set_option autoImplicit false

namespace Luxmed

/-- Parsed JSON values, the result of `response.json()`. -/
inductive Json where
  | null
  | bool (b : Bool)
  | num (n : Int)
  | str (s : String)
  | arr (elems : List Json)
  | obj (fields : List (String × Json))

/-- Dictionary lookup on the field list of a JSON object. -/
def lookupField : List (String × Json) → String → Option Json
  | [], _ => none
  | (k', v) :: rest, k => if k' = k then some v else lookupField rest k

/-- `d[k]` on a parsed JSON value: `some` on an object that has the key,
`none` otherwise (Python would raise KeyError / TypeError). -/
def Json.getField : Json → String → Option Json
  | Json.obj fields, k => lookupField fields k
  | _, _ => none

/-- View a JSON value as an array (Python iteration over a JSON list). -/
def Json.asArr : Json → Option (List Json)
  | Json.arr xs => some xs
  | _ => none

/-- View a JSON value as a string. -/
def Json.asStr : Json → Option String
  | Json.str s => some s
  | _ => none

/-- A query-string parameter value as passed to `requests.get(params=...)`:
Python `None`, an int, or a string. -/
inductive PyVal where
  | vnone
  | vint (n : Int)
  | vstr (s : String)
deriving DecidableEq

/-- An outgoing HTTP request: method, URL, headers, query parameters and
(for the token POST) the form-encoded body. -/
structure Request where
  method : String
  url : String
  headers : List (String × String)
  params : List (String × PyVal)
  formBody : List (String × String)
deriving DecidableEq

/-- An HTTP response: status code and parsed JSON body. -/
structure Response where
  status : Nat
  body : Json

/-- Errors: `luxmed p` is `LuxmedApiException(p)`; `structural` collapses the
Python KeyError / TypeError raised on an unexpected JSON shape. -/
inductive PyErr where
  | luxmed (payload : Json)
  | structural

/-- The credential configuration read once at construction
(`config_loader.read_configuration("luxmed", [username, password, language])`). -/
structure Config where
  username : String
  password : String
  language : String

/-- The environment a client runs in: its configuration, the process-wide
`_CUSTOM_USER_AGENT` string, the stream of `uuid.uuid4()` draws and the HTTP
transport. -/
structure Env where
  config : Config
  customUserAgent : String
  uuid : Nat → String
  transport : Request → Response

/-- Mutable state threaded through an operation: index of the next uuid draw
and the chronological list of (request, response) round-trips performed. -/
structure St where
  next : Nat
  trace : List (Request × Response)

/-- `LuxmedApi._API_BASE_URL`. -/
def API_BASE_URL : String := "https://portalpacjenta.luxmed.pl/PatientPortalMobileAPI/api"

/-- URL of the token endpoint (`"%s/token"`). -/
def tokenUrl : String := API_BASE_URL ++ "/token"

/-- URL of the discovery endpoint (`"%s/visits/available-terms/reservation-filter"`). -/
def filterUrl : String := API_BASE_URL ++ "/visits/available-terms/reservation-filter"

/-- URL of the visit-search endpoint (`"%s/visits/available-terms"`). -/
def searchUrl : String := API_BASE_URL ++ "/visits/available-terms"

/-- `LuxmedApi._validate_response`: raise `LuxmedApiException(response.json())`
unless the status code is exactly 200. -/
def validate_response (r : Response) : Except PyErr Unit :=
  if r.status ≠ 200 then Except.error (PyErr.luxmed r.body) else Except.ok ()

/-- Python string slicing `s[:35]`: the first 35 characters. -/
def take35 (s : String) : String := String.mk (s.data.take 35)

/-- `LuxmedApi._prepare_authentication_body`, with the two `uuid.uuid4()` calls
taken from the uuid stream at indices `k` (account) and `k + 1` (client);
`str(uuid.uuid4())[:35]` is `take35 (env.uuid k)`. -/
def authBody (env : Env) (k : Nat) : List (String × String) :=
  [("username", env.config.username),
   ("password", env.config.password),
   ("grant_type", "password"),
   ("account_id", take35 (env.uuid k)),
   ("client_id", env.uuid (k + 1))]

/-- The POST issued by `_get_access_token`, with its fixed header set. -/
def tokenRequest (env : Env) (body : List (String × String)) : Request :=
  { method := "POST"
    url := tokenUrl
    headers := [("Api-Version", "2.0"),
                ("accept-language", env.config.language),
                ("Content-Type", "application/x-www-form-urlencoded"),
                ("accept-encoding", "gzip"),
                ("x-api-client-identifier", "Android"),
                ("User-Agent", "okhttp/3.11.0"),
                ("Custom-User-Agent", env.customUserAgent)]
    params := []
    formBody := body }

/-- The response the transport gives to this state's token request. -/
def tokenResponse (env : Env) (s : St) : Response :=
  env.transport (tokenRequest env (authBody env s.next))

/-- The state after the token round-trip: two uuid draws consumed and the
token (request, response) pair appended to the trace. -/
def stAfterToken (env : Env) (s : St) : St :=
  ⟨s.next + 2, s.trace ++ [(tokenRequest env (authBody env s.next), tokenResponse env s)]⟩

/-- `LuxmedApi._get_access_token`: build the auth body (two fresh uuid draws),
POST it to the token endpoint, validate, and extract `access_token` from the
JSON body. -/
def get_access_token (env : Env) (s : St) : Except PyErr (String × St) :=
  match validate_response (tokenResponse env s) with
  | Except.error e => Except.error e
  | Except.ok _ =>
    match (tokenResponse env s).body.getField "access_token" with
    | some (Json.str t) => Except.ok (t, stAfterToken env s)
    | _ => Except.error PyErr.structural

/-- The header map assembled by `_prepare_headers` for a given API version and
bearer token. -/
def headersFor (env : Env) (api_version token : String) : List (String × String) :=
  [("Authorization", "Bearer " ++ token),
   ("Api-Version", api_version),
   ("accept-language", env.config.language),
   ("Content-Type", "application/json; charset=UTF-8"),
   ("accept-encoding", "gzip"),
   ("x-api-client-identifier", "Android"),
   ("User-Agent", "okhttp/3.11.0"),
   ("Custom-User-Agent", env.customUserAgent)]

/-- `LuxmedApi._prepare_headers`: fetch a fresh access token, then assemble the
headers at the requested API version. -/
def prepare_headers (env : Env) (api_version : String) (s : St) :
    Except PyErr (List (String × String) × St) :=
  match get_access_token env s with
  | Except.error e => Except.error e
  | Except.ok (t, s') => Except.ok (headersFor env api_version t, s')

/-- The GET issued by `_send_request_for_filters`. -/
def filterRequest (hdrs : List (String × String)) (ps : List (String × PyVal)) : Request :=
  { method := "GET", url := filterUrl, headers := hdrs, params := ps, formBody := [] }

/-- `LuxmedApi._send_request_for_filters`: headers at API version "3.0", GET the
reservation-filter endpoint with the given params, validate, return the body. -/
def send_request_for_filters (env : Env) (ps : List (String × PyVal)) (s : St) :
    Except PyErr (Json × St) :=
  match prepare_headers env "3.0" s with
  | Except.error e => Except.error e
  | Except.ok (hdrs, s') =>
    match validate_response (env.transport (filterRequest hdrs ps)) with
    | Except.error e => Except.error e
    | Except.ok _ =>
      Except.ok ((env.transport (filterRequest hdrs ps)).body,
        ⟨s'.next, s'.trace ++ [(filterRequest hdrs ps, env.transport (filterRequest hdrs ps))]⟩)

/-- One step of the discovery loops: read `Id` then `Name` of one element. -/
def projectIdName (j : Json) : Option (Json × Json) :=
  match j.getField "Id" with
  | none => none
  | some i =>
    match j.getField "Name" with
    | none => none
    | some n => some (i, n)

/-- Python `for` loop accumulating `f x` for each element, aborting at the
first failure (the loop body raising). -/
def mapOption {α β : Type} (f : α → Option β) : List α → Option (List β)
  | [] => some []
  | x :: xs =>
    match f x with
    | none => none
    | some y =>
      match mapOption f xs with
      | none => none
      | some ys => some (y :: ys)

/-- The shared normalization of the three discovery loops: take the named array
key from the response body and project each element to its `(Id, Name)` pair. -/
def extractIdNamePairs (body : Json) (key : String) : Option (List (Json × Json)) :=
  match body.getField key with
  | none => none
  | some arrJ =>
    match arrJ.asArr with
    | none => none
    | some xs => mapOption projectIdName xs

/-- `LuxmedApi.get_cities`. -/
def get_cities (env : Env) (s : St) : Except PyErr (List (Json × Json) × St) :=
  match send_request_for_filters env [] s with
  | Except.error e => Except.error e
  | Except.ok (body, s') =>
    match extractIdNamePairs body "Cities" with
    | some cities => Except.ok (cities, s')
    | none => Except.error PyErr.structural

/-- `LuxmedApi.get_services`. -/
def get_services (env : Env) (city_id : Int) (s : St) :
    Except PyErr (List (Json × Json) × St) :=
  match send_request_for_filters env [("filter.cityId", PyVal.vint city_id)] s with
  | Except.error e => Except.error e
  | Except.ok (body, s') =>
    match extractIdNamePairs body "Services" with
    | some services => Except.ok (services, s')
    | none => Except.error PyErr.structural

/-- `LuxmedApi.get_clinics`. -/
def get_clinics (env : Env) (city_id : Int) (s : St) :
    Except PyErr (List (Json × Json) × St) :=
  match send_request_for_filters env [("filter.cityId", PyVal.vint city_id)] s with
  | Except.error e => Except.error e
  | Except.ok (body, s') =>
    match extractIdNamePairs body "Clinics" with
    | some clinics => Except.ok (clinics, s')
    | none => Except.error PyErr.structural

/-- One slot record of the search result
(`{'time': ..., 'doctor_name': ..., 'clinic_name': ...}`). -/
structure AppointmentSlot where
  time : Json
  doctor_name : Json
  clinic_name : Json

/-- One day record of the search result (`{'date': ..., 'visits': [...]}`). -/
structure AppointmentDay where
  date : String
  visits : List AppointmentSlot

/-- Inner loop body of `get_visits`: map one upstream slot to its record,
reading `FormattedVisitHour`, `Doctor.Name` and `Clinic.Name` in source order. -/
def normalizeSlot (j : Json) : Option AppointmentSlot :=
  match j.getField "FormattedVisitHour" with
  | none => none
  | some visit_time =>
    match j.getField "Doctor" with
    | none => none
    | some doc =>
      match doc.getField "Name" with
      | none => none
      | some dn =>
        match j.getField "Clinic" with
        | none => none
        | some cl =>
          match cl.getField "Name" with
          | none => none
          | some cn => some ⟨visit_time, dn, cn⟩

/-- Days in a month of the proleptic Gregorian calendar, as Python's
`datetime` validates them. -/
def daysInMonth (y m : Nat) : Nat :=
  if m = 2 then (if (y % 4 = 0 ∧ y % 100 ≠ 0) ∨ y % 400 = 0 then 29 else 28)
  else if m = 4 ∨ m = 6 ∨ m = 9 ∨ m = 11 then 30 else 31

/-- Numeric value of a decimal digit character. -/
def digitVal (c : Char) : Nat := c.toNat - 48

/-- Model of `str(datetime.fromisoformat(s).date())`: the string must start
with a valid `YYYY-MM-DD` calendar date, which is returned; the optional time
suffix after the date is accepted without further validation, since its
validity never affects the date component. -/
def pyIsoDate (s : String) : Option String :=
  match s.data with
  | y1 :: y2 :: y3 :: y4 :: c1 :: m1 :: m2 :: c2 :: d1 :: d2 :: _rest =>
    let y := digitVal y1 * 1000 + digitVal y2 * 100 + digitVal y3 * 10 + digitVal y4
    let m := digitVal m1 * 10 + digitVal m2
    let d := digitVal d1 * 10 + digitVal d2
    if (y1.isDigit ∧ y2.isDigit ∧ y3.isDigit ∧ y4.isDigit ∧
        m1.isDigit ∧ m2.isDigit ∧ d1.isDigit ∧ d2.isDigit) ∧
       c1 = '-' ∧ c2 = '-' ∧
       1 ≤ y ∧ 1 ≤ m ∧ m ≤ 12 ∧ 1 ≤ d ∧ d ≤ daysInMonth y m
    then some (String.mk [y1, y2, y3, y4, c1, m1, m2, c2, d1, d2])
    else none
  | _ => none

/-- Outer loop body of `get_visits`: normalize one day-group — its slot list
first, then the date from `VisitDate.StartDateTime`. -/
def normalizeDay (g : Json) : Option AppointmentDay :=
  match g.getField "AvailableVisitsTermPresentation" with
  | none => none
  | some slotsJ =>
    match slotsJ.asArr with
    | none => none
    | some slots =>
      match mapOption normalizeSlot slots with
      | none => none
      | some visits =>
        match g.getField "VisitDate" with
        | none => none
        | some vd =>
          match vd.getField "StartDateTime" with
          | none => none
          | some sdtJ =>
            match sdtJ.asStr with
            | none => none
            | some sdt =>
              match pyIsoDate sdt with
              | none => none
              | some date => some ⟨date, visits⟩

/-- The full normalization of `get_visits`: one `AppointmentDay` per element of
`AgregateAvailableVisitTerms`, in upstream order. -/
def normalizeVisits (raw : Json) : Option (List AppointmentDay) :=
  match raw.getField "AgregateAvailableVisitTerms" with
  | none => none
  | some nv =>
    match nv.asArr with
    | none => none
    | some days => mapOption normalizeDay days

/-- An optional Python int as a query-parameter value (`None` when unset). -/
def pyOptInt : Option Int → PyVal
  | none => PyVal.vnone
  | some n => PyVal.vint n

/-- The query-parameter dict built by `get_visits` (note: no doctor id entry
appears in the source). -/
def searchParams (city_id service_id : Int) (from_date to_date : String)
    (clinic_id : Option Int) : List (String × PyVal) :=
  [("filter.cityId", PyVal.vint city_id),
   ("filter.serviceId", PyVal.vint service_id),
   ("filter.clinicId", pyOptInt clinic_id),
   ("filter.fromDate", PyVal.vstr from_date),
   ("filter.toDate", PyVal.vstr to_date)]

/-- The GET issued by `get_visits`. -/
def searchRequest (hdrs : List (String × String)) (ps : List (String × PyVal)) : Request :=
  { method := "GET", url := searchUrl, headers := hdrs, params := ps, formBody := [] }

/-- `LuxmedApi.get_visits`: headers at API version "2.0", GET the
available-terms endpoint with the filter params, validate, normalize.
`doctor_id` mirrors the unused Python parameter. -/
def get_visits (env : Env) (city_id service_id : Int) (from_date to_date : String)
    (clinic_id doctor_id : Option Int) (s : St) :
    Except PyErr (List AppointmentDay × St) :=
  match prepare_headers env "2.0" s with
  | Except.error e => Except.error e
  | Except.ok (hdrs, s') =>
    match validate_response (env.transport
        (searchRequest hdrs (searchParams city_id service_id from_date to_date clinic_id))) with
    | Except.error e => Except.error e
    | Except.ok _ =>
      match normalizeVisits (env.transport
          (searchRequest hdrs (searchParams city_id service_id from_date to_date clinic_id))).body with
      | some days =>
        Except.ok (days,
          ⟨s'.next, s'.trace ++
            [(searchRequest hdrs (searchParams city_id service_id from_date to_date clinic_id),
              env.transport (searchRequest hdrs
                (searchParams city_id service_id from_date to_date clinic_id)))]⟩)
      | none => Except.error PyErr.structural

/-! ### Derived views used to state and prove the claims -/

/-- The response of the discovery round-trip performed with token `t`. -/
def filterResp (env : Env) (t : String) (ps : List (String × PyVal)) : Response :=
  env.transport (filterRequest (headersFor env "3.0" t) ps)

/-- The state after a discovery operation that authenticated with token `t`. -/
def stAfterFilter (env : Env) (s : St) (t : String) (ps : List (String × PyVal)) : St :=
  ⟨s.next + 2, (stAfterToken env s).trace ++
    [(filterRequest (headersFor env "3.0" t) ps, filterResp env t ps)]⟩

/-- The response of the visit-search round-trip performed with token `t`. -/
def searchResp (env : Env) (t : String) (ps : List (String × PyVal)) : Response :=
  env.transport (searchRequest (headersFor env "2.0" t) ps)

/-- The state after a visit search that authenticated with token `t`. -/
def stAfterSearch (env : Env) (s : St) (t : String) (ps : List (String × PyVal)) : St :=
  ⟨s.next + 2, (stAfterToken env s).trace ++
    [(searchRequest (headersFor env "2.0" t) ps, searchResp env t ps)]⟩

/-- Lookup in a string-valued form body. -/
def lookupStr : List (String × String) → String → Option String
  | [], _ => none
  | (k', v) :: rest, k => if k' = k then some v else lookupStr rest k

/-- The `account_id` field of an authentication body. -/
def accountIdOf (b : List (String × String)) : Option String := lookupStr b "account_id"

/-- The `client_id` field of an authentication body. -/
def clientIdOf (b : List (String × String)) : Option String := lookupStr b "client_id"

/-- The parsed body of the response to the last request a state recorded. -/
def lastBody (s : St) : Option Json := s.trace.getLast?.map (fun e => e.2.body)

/-- Methods and URLs of a trace segment, in order. -/
def traceMethodUrl (l : List (Request × Response)) : List (String × String) :=
  l.map (fun e => (e.1.method, e.1.url))

/-- A two-round-trip trace whose second request authenticates with exactly the
`access_token` of the first round-trip's response. -/
def bearerOk : List (Request × Response) → Prop
  | [e1, e2] =>
    (match e1.2.body.getField "access_token" with
     | some (Json.str t) => ("Authorization", "Bearer " ++ t) ∈ e2.1.headers
     | _ => False)
  | _ => False

/-- The API-version header contract: discovery requests carry "3.0", search
requests carry "2.0". -/
def VersionOk (r : Request) : Prop :=
  (r.url = filterUrl → ("Api-Version", "3.0") ∈ r.headers) ∧
  (r.url = searchUrl → ("Api-Version", "2.0") ∈ r.headers)

/-! ### A concrete demonstration environment -/

/-- A concrete city element. -/
def demoCity : Json := Json.obj [("Id", Json.num 1), ("Name", Json.str "Warszawa")]

/-- A happy-path response body for the discovery endpoint. -/
def demoFilterBody : Json :=
  Json.obj [("Cities", Json.arr [demoCity]), ("Services", Json.arr []), ("Clinics", Json.arr [])]

/-- A concrete upstream slot. -/
def demoSlot1 : Json :=
  Json.obj [("FormattedVisitHour", Json.str "09:00"),
            ("Doctor", Json.obj [("Name", Json.str "Dr A")]),
            ("Clinic", Json.obj [("Name", Json.str "Clinic A")])]

/-- A second concrete upstream slot. -/
def demoSlot2 : Json :=
  Json.obj [("FormattedVisitHour", Json.str "10:30"),
            ("Doctor", Json.obj [("Name", Json.str "Dr B")]),
            ("Clinic", Json.obj [("Name", Json.str "Clinic B")])]

/-- A day-group with one slot, dated 2024-03-01. -/
def demoGroup1 : Json :=
  Json.obj [("AvailableVisitsTermPresentation", Json.arr [demoSlot1]),
            ("VisitDate", Json.obj [("StartDateTime", Json.str "2024-03-01T09:00:00")])]

/-- A day-group with one slot, dated 2024-03-02. -/
def demoGroup2 : Json :=
  Json.obj [("AvailableVisitsTermPresentation", Json.arr [demoSlot2]),
            ("VisitDate", Json.obj [("StartDateTime", Json.str "2024-03-02T10:30:00")])]

/-- A happy-path response body for the visit-search endpoint: two day-groups
with one slot each. -/
def demoSearchBody : Json :=
  Json.obj [("AgregateAvailableVisitTerms", Json.arr [demoGroup1, demoGroup2])]

/-- A transport answering every endpoint successfully with the bodies above. -/
def demoTransport (req : Request) : Response :=
  if req.url = tokenUrl then ⟨200, Json.obj [("access_token", Json.str "tok")]⟩
  else if req.url = filterUrl then ⟨200, demoFilterBody⟩
  else ⟨200, demoSearchBody⟩

/-- A concrete environment: fixed credentials, the decimal index as the uuid
stream (all draws distinct), and the happy-path transport. -/
def demoEnv : Env :=
  { config := ⟨"user", "pass", "pl"⟩
    customUserAgent := "cua"
    uuid := fun k => Nat.repr k
    transport := demoTransport }

/-- The initial state: no uuid draws, empty trace. -/
def st0 : St := ⟨0, []⟩

/-- An environment whose token endpoint fails with status 500 and body "boom". -/
def failAuthEnv : Env :=
  { demoEnv with transport := fun req =>
      if req.url = tokenUrl then ⟨500, Json.str "boom"⟩ else demoTransport req }

/-- An environment whose token endpoint succeeds but whose data endpoints fail
with status 500 and body "boom". -/
def failDataEnv : Env :=
  { demoEnv with transport := fun req =>
      if req.url = tokenUrl then demoTransport req else ⟨500, Json.str "boom"⟩ }

/-! ### Generic lemmas about the loop combinator -/

theorem mapOption_length {α β : Type} (f : α → Option β) :
    ∀ (xs : List α) (ys : List β), mapOption f xs = some ys → ys.length = xs.length := by
  intro xs
  induction xs with
  | nil =>
    intro ys h
    simp only [mapOption, Option.some.injEq] at h
    subst h; rfl
  | cons x xs ih =>
    intro ys h
    unfold mapOption at h
    split at h
    · cases h
    · next y _ =>
      split at h
      · cases h
      · next ys' heqys =>
        injection h with h1
        subst h1
        simpa using ih ys' heqys

theorem mapOption_get {α β : Type} (f : α → Option β) :
    ∀ (xs : List α) (ys : List β), mapOption f xs = some ys →
      ∀ (i : Nat) (hx : i < xs.length) (hy : i < ys.length),
        f (xs.get ⟨i, hx⟩) = some (ys.get ⟨i, hy⟩) := by
  intro xs
  induction xs with
  | nil =>
    intro ys h i hx hy
    exact absurd hx (by simp)
  | cons x xs ih =>
    intro ys h i hx hy
    unfold mapOption at h
    split at h
    · cases h
    · next y heqy =>
      split at h
      · cases h
      · next ys' heqys =>
        injection h with h1
        subst h1
        match i with
        | 0 => exact heqy
        | Nat.succ j => exact ih ys' heqys j (Nat.lt_of_succ_lt_succ hx) (Nat.lt_of_succ_lt_succ hy)

/-- Whenever the date model accepts a timestamp, the result is exactly the
first ten characters — the `YYYY-MM-DD` portion. -/
theorem pyIsoDate_eq_take {s d : String} (h : pyIsoDate s = some d) :
    d = String.mk (s.data.take 10) := by
  unfold pyIsoDate at h
  split at h
  · next y1 y2 y3 y4 c1 m1 m2 c2 d1 d2 rest heq =>
    simp only [] at h
    split at h
    · injection h with h1
      subst h1
      rw [heq]
      rfl
    · cases h
  · cases h

/-! ### Success-shape inversion lemmas for the pipeline -/

theorem get_access_token_ok {env : Env} {s : St} {t : String} {s' : St}
    (h : get_access_token env s = Except.ok (t, s')) :
    (tokenResponse env s).status = 200 ∧
    (tokenResponse env s).body.getField "access_token" = some (Json.str t) ∧
    s' = stAfterToken env s := by
  unfold get_access_token at h
  split at h
  · cases h
  · next heqv =>
    split at h
    · next t' heqf =>
      injection h with h1
      injection h1 with h2 h3
      subst h2
      exact ⟨by
        unfold validate_response at heqv
        split at heqv
        · cases heqv
        · next hcond => exact not_not.mp hcond,
        heqf, h3.symm⟩
    · cases h

theorem prepare_headers_ok {env : Env} {v : String} {s : St}
    {hs : List (String × String)} {s' : St}
    (h : prepare_headers env v s = Except.ok (hs, s')) :
    ∃ t, get_access_token env s = Except.ok (t, s') ∧ hs = headersFor env v t := by
  unfold prepare_headers at h
  split at h
  · cases h
  · next t s₁ heq =>
    injection h with h1
    injection h1 with h2 h3
    subst h3
    exact ⟨t, heq, h2.symm⟩

theorem send_filters_ok {env : Env} {ps : List (String × PyVal)} {s : St}
    {b : Json} {s'' : St}
    (h : send_request_for_filters env ps s = Except.ok (b, s'')) :
    ∃ t, get_access_token env s = Except.ok (t, stAfterToken env s) ∧
      (filterResp env t ps).status = 200 ∧
      b = (filterResp env t ps).body ∧
      s'' = stAfterFilter env s t ps := by
  unfold send_request_for_filters at h
  split at h
  · cases h
  · next hdrs s' heqp =>
    obtain ⟨t, hga, hhdrs⟩ := prepare_headers_ok heqp
    obtain ⟨hst, hfield, hs'⟩ := get_access_token_ok hga
    subst hhdrs
    subst hs'
    split at h
    · cases h
    · next heqv =>
      injection h with h1
      injection h1 with h2 h3
      refine ⟨t, hga, ?_, h2.symm, h3.symm⟩
      unfold validate_response at heqv
      split at heqv
      · cases heqv
      · next hcond => exact not_not.mp hcond

theorem get_cities_ok {env : Env} {s : St} {v : List (Json × Json)} {s'' : St}
    (h : get_cities env s = Except.ok (v, s'')) :
    ∃ t, get_access_token env s = Except.ok (t, stAfterToken env s) ∧
      (filterResp env t []).status = 200 ∧
      extractIdNamePairs (filterResp env t []).body "Cities" = some v ∧
      s'' = stAfterFilter env s t [] := by
  unfold get_cities at h
  split at h
  · cases h
  · next body s₁ heqs =>
    obtain ⟨t, hga, hst, hb, hs₁⟩ := send_filters_ok heqs
    subst hb; subst hs₁
    split at h
    · next pairs heq =>
      injection h with h1
      injection h1 with h2 h3
      subst h2; subst h3
      exact ⟨t, hga, hst, heq, rfl⟩
    · cases h

theorem get_services_ok {env : Env} {cid : Int} {s : St} {v : List (Json × Json)} {s'' : St}
    (h : get_services env cid s = Except.ok (v, s'')) :
    ∃ t, get_access_token env s = Except.ok (t, stAfterToken env s) ∧
      (filterResp env t [("filter.cityId", PyVal.vint cid)]).status = 200 ∧
      extractIdNamePairs (filterResp env t [("filter.cityId", PyVal.vint cid)]).body "Services"
        = some v ∧
      s'' = stAfterFilter env s t [("filter.cityId", PyVal.vint cid)] := by
  unfold get_services at h
  split at h
  · cases h
  · next body s₁ heqs =>
    obtain ⟨t, hga, hst, hb, hs₁⟩ := send_filters_ok heqs
    subst hb; subst hs₁
    split at h
    · next pairs heq =>
      injection h with h1
      injection h1 with h2 h3
      subst h2; subst h3
      exact ⟨t, hga, hst, heq, rfl⟩
    · cases h

theorem get_clinics_ok {env : Env} {cid : Int} {s : St} {v : List (Json × Json)} {s'' : St}
    (h : get_clinics env cid s = Except.ok (v, s'')) :
    ∃ t, get_access_token env s = Except.ok (t, stAfterToken env s) ∧
      (filterResp env t [("filter.cityId", PyVal.vint cid)]).status = 200 ∧
      extractIdNamePairs (filterResp env t [("filter.cityId", PyVal.vint cid)]).body "Clinics"
        = some v ∧
      s'' = stAfterFilter env s t [("filter.cityId", PyVal.vint cid)] := by
  unfold get_clinics at h
  split at h
  · cases h
  · next body s₁ heqs =>
    obtain ⟨t, hga, hst, hb, hs₁⟩ := send_filters_ok heqs
    subst hb; subst hs₁
    split at h
    · next pairs heq =>
      injection h with h1
      injection h1 with h2 h3
      subst h2; subst h3
      exact ⟨t, hga, hst, heq, rfl⟩
    · cases h

theorem get_visits_ok {env : Env} {c sv : Int} {fd td : String} {cl dr : Option Int}
    {s : St} {days : List AppointmentDay} {s'' : St}
    (h : get_visits env c sv fd td cl dr s = Except.ok (days, s'')) :
    ∃ t, get_access_token env s = Except.ok (t, stAfterToken env s) ∧
      (searchResp env t (searchParams c sv fd td cl)).status = 200 ∧
      normalizeVisits (searchResp env t (searchParams c sv fd td cl)).body = some days ∧
      s'' = stAfterSearch env s t (searchParams c sv fd td cl) := by
  unfold get_visits at h
  split at h
  · cases h
  · next hdrs s' heqp =>
    obtain ⟨t, hga, hhdrs⟩ := prepare_headers_ok heqp
    obtain ⟨hst, hfield, hs'⟩ := get_access_token_ok hga
    subst hhdrs
    subst hs'
    split at h
    · cases h
    · next heqv =>
      split at h
      · next ds heqn =>
        injection h with h1
        injection h1 with h2 h3
        subst h2; subst h3
        refine ⟨t, hga, ?_, heqn, rfl⟩
        unfold validate_response at heqv
        split at heqv
        · cases heqv
        · next hcond => exact not_not.mp hcond
      · cases h

/-! ### Concrete runs in the demonstration environment -/

/-- A default request value. -/
def dummyReq : Request := ⟨"", "", [], [], []⟩

/-- The list returned by `get_cities` in the demo environment. -/
def demoCities : List (Json × Json) :=
  match get_cities demoEnv st0 with
  | Except.ok (v, _) => v
  | Except.error _ => []

/-- The state after `get_cities` in the demo environment. -/
def demoCitiesSt : St :=
  match get_cities demoEnv st0 with
  | Except.ok (_, s) => s
  | Except.error _ => st0

/-- The list returned by the demo visit search. -/
def demoVisitsDays : List AppointmentDay :=
  match get_visits demoEnv 1 2 "2024-03-01" "2024-03-02" none none st0 with
  | Except.ok (v, _) => v
  | Except.error _ => []

/-- The state after the demo visit search. -/
def demoVisitsSt : St :=
  match get_visits demoEnv 1 2 "2024-03-01" "2024-03-02" none none st0 with
  | Except.ok (_, s) => s
  | Except.error _ => st0

/-- The state after a lone `_get_access_token` call in the demo environment. -/
def demoTokSt : St :=
  match get_access_token demoEnv st0 with
  | Except.ok (_, s) => s
  | Except.error _ => st0

/-- The discovery request issued by the demo `get_cities` run. -/
def demoFilterReqIssued : Request :=
  (demoCitiesSt.trace.map (fun e => e.1)).getD 1 dummyReq

/-! ### Shape lemmas about traces and normalization -/

theorem lastBody_concat {n : Nat} {l : List (Request × Response)} {e : Request × Response} :
    lastBody ⟨n, l ++ [e]⟩ = some e.2.body := by
  show ((l ++ e :: []).getLast?).map (fun x => x.2.body) = some e.2.body
  rw [List.getLast?_append_cons]
  rfl

theorem lastBody_stAfterFilter (env : Env) (s : St) (t : String) (ps : List (String × PyVal)) :
    lastBody (stAfterFilter env s t ps) = some (filterResp env t ps).body :=
  lastBody_concat

theorem lastBody_stAfterSearch (env : Env) (s : St) (t : String) (ps : List (String × PyVal)) :
    lastBody (stAfterSearch env s t ps) = some (searchResp env t ps).body :=
  lastBody_concat

theorem drop_stAfterFilter (env : Env) (s : St) (t : String) (ps : List (String × PyVal)) :
    (stAfterFilter env s t ps).trace.drop s.trace.length =
      [(tokenRequest env (authBody env s.next), tokenResponse env s),
       (filterRequest (headersFor env "3.0" t) ps, filterResp env t ps)] := by
  show ((s.trace ++ [(tokenRequest env (authBody env s.next), tokenResponse env s)]) ++
      [(filterRequest (headersFor env "3.0" t) ps, filterResp env t ps)]).drop s.trace.length = _
  rw [List.append_assoc, List.drop_left]
  rfl

theorem drop_stAfterSearch (env : Env) (s : St) (t : String) (ps : List (String × PyVal)) :
    (stAfterSearch env s t ps).trace.drop s.trace.length =
      [(tokenRequest env (authBody env s.next), tokenResponse env s),
       (searchRequest (headersFor env "2.0" t) ps, searchResp env t ps)] := by
  show ((s.trace ++ [(tokenRequest env (authBody env s.next), tokenResponse env s)]) ++
      [(searchRequest (headersFor env "2.0" t) ps, searchResp env t ps)]).drop s.trace.length = _
  rw [List.append_assoc, List.drop_left]
  rfl

theorem normalizeVisits_groups {b : Json} {groups : List Json} {days : List AppointmentDay}
    (hg : b.getField "AgregateAvailableVisitTerms" = some (Json.arr groups))
    (hn : normalizeVisits b = some days) :
    mapOption normalizeDay groups = some days := by
  unfold normalizeVisits at hn
  rw [hg] at hn
  simpa [Json.asArr] using hn

theorem extractIdNamePairs_pairs {b : Json} {key : String} {xs : List Json}
    {v : List (Json × Json)}
    (hx : b.getField key = some (Json.arr xs))
    (he : extractIdNamePairs b key = some v) :
    mapOption projectIdName xs = some v := by
  unfold extractIdNamePairs at he
  rw [hx] at he
  simpa [Json.asArr] using he

theorem projectIdName_fields {j : Json} {p : Json × Json} (h : projectIdName j = some p) :
    j.getField "Id" = some p.1 ∧ j.getField "Name" = some p.2 := by
  unfold projectIdName at h
  split at h
  · cases h
  · next i h1 =>
    split at h
    · cases h
    · next n h2 =>
      injection h with h3
      subst h3
      exact ⟨h1, h2⟩

theorem normalizeDay_slots {g : Json} {day : AppointmentDay} {slots : List Json}
    (hs : g.getField "AvailableVisitsTermPresentation" = some (Json.arr slots))
    (h : normalizeDay g = some day) :
    mapOption normalizeSlot slots = some day.visits := by
  unfold normalizeDay at h
  rw [hs] at h
  simp only [Json.asArr] at h
  split at h
  · cases h
  · next visits heqm =>
    split at h
    · cases h
    · next vd hvd =>
      split at h
      · cases h
      · next sdtJ hsdt =>
        split at h
        · cases h
        · next sdt hstr =>
          split at h
          · cases h
          · next date hdate =>
            injection h with h1
            subst h1
            exact heqm

theorem normalizeDay_date {g : Json} {day : AppointmentDay} {sdt : String}
    (h : normalizeDay g = some day)
    (hsd : (g.getField "VisitDate").bind
      (fun vd => (vd.getField "StartDateTime").bind Json.asStr) = some sdt) :
    day.date = String.mk (sdt.data.take 10) := by
  unfold normalizeDay at h
  split at h
  · cases h
  · next slotsJ h1 =>
    split at h
    · cases h
    · next slots h2 =>
      split at h
      · cases h
      · next visits h3 =>
        split at h
        · cases h
        · next vd h4 =>
          split at h
          · cases h
          · next sdtJ h5 =>
            split at h
            · cases h
            · next sdt' h6 =>
              split at h
              · cases h
              · next date h7 =>
                injection h with h1'
                subst h1'
                rw [h4, Option.some_bind, h5, Option.some_bind, h6] at hsd
                injection hsd with h8
                subst h8
                exact pyIsoDate_eq_take h7

theorem normalizeSlot_fields {j : Json} {slot : AppointmentSlot}
    (h : normalizeSlot j = some slot) :
    j.getField "FormattedVisitHour" = some slot.time ∧
    (j.getField "Doctor").bind (fun d => d.getField "Name") = some slot.doctor_name ∧
    (j.getField "Clinic").bind (fun c => c.getField "Name") = some slot.clinic_name := by
  unfold normalizeSlot at h
  split at h
  · cases h
  · next vt h1 =>
    split at h
    · cases h
    · next doc h2 =>
      split at h
      · cases h
      · next dn h3 =>
        split at h
        · cases h
        · next cl h4 =>
          split at h
          · cases h
          · next cn h5 =>
            injection h with h6
            subst h6
            exact ⟨h1, by rw [h2, Option.some_bind]; exact h3,
              by rw [h4, Option.some_bind]; exact h5⟩

/-! ### The claims -/

/-- Claim C1: for every successful `get_visits` whose upstream response body
contains N day-groups under `AgregateAvailableVisitTerms`, the returned list
has exactly N `AppointmentDay` entries, in the same order as the upstream
groups (entry i is the normalization of group i), and each entry's `date`
equals the date portion — the first ten characters — of that group's
`VisitDate.StartDateTime` ISO-8601 timestamp. -/
theorem C1_visit_days (env : Env) (c sv : Int) (fd td : String) (cl dr : Option Int)
    (s : St) (days : List AppointmentDay) (s'' : St) (b : Json) (groups : List Json)
    (h : get_visits env c sv fd td cl dr s = Except.ok (days, s''))
    (hb : lastBody s'' = some b)
    (hg : b.getField "AgregateAvailableVisitTerms" = some (Json.arr groups)) :
    days.length = groups.length ∧
    (∀ (i : Nat) (hgi : i < groups.length) (hdi : i < days.length),
      normalizeDay (groups.get ⟨i, hgi⟩) = some (days.get ⟨i, hdi⟩)) ∧
    (∀ (i : Nat) (hgi : i < groups.length) (hdi : i < days.length) (sdt : String),
      ((groups.get ⟨i, hgi⟩).getField "VisitDate").bind
        (fun vd => (vd.getField "StartDateTime").bind Json.asStr) = some sdt →
      (days.get ⟨i, hdi⟩).date = String.mk (sdt.data.take 10)) := by
  obtain ⟨t, hga, hst, hnv, hs''⟩ := get_visits_ok h
  subst hs''
  rw [lastBody_stAfterSearch] at hb
  injection hb with hb1
  subst hb1
  have hmap := normalizeVisits_groups hg hnv
  refine ⟨mapOption_length _ groups days hmap,
    fun i hgi hdi => mapOption_get _ groups days hmap i hgi hdi,
    fun i hgi hdi sdt hsdt =>
      normalizeDay_date (mapOption_get _ groups days hmap i hgi hdi) hsdt⟩

/-- Witness for C1: in the demo run the two upstream day-groups yield exactly
two days, dated "2024-03-01" and "2024-03-02". -/
theorem C1_visit_days_witness :
    demoVisitsDays.length = 2 ∧
    (demoVisitsDays.getD 0 ⟨"", []⟩).date = "2024-03-01" ∧
    (demoVisitsDays.getD 1 ⟨"", []⟩).date = "2024-03-02" := by
  have h := C1_visit_days demoEnv 1 2 "2024-03-01" "2024-03-02" none none st0
    demoVisitsDays demoVisitsSt demoSearchBody [demoGroup1, demoGroup2] rfl rfl rfl
  exact ⟨h.1, h.2.2 0 (by decide) (by decide) "2024-03-01T09:00:00" rfl,
    h.2.2 1 (by decide) (by decide) "2024-03-02T10:30:00" rfl⟩

/-- Claim C2: for every successful `get_visits` and every upstream day-group,
the returned day's `visits` list has the same length and order as the group's
`AvailableVisitsTermPresentation` array (slot k is the normalization of
upstream slot k), and each slot record maps `FormattedVisitHour` to `time`,
`Doctor.Name` to `doctor_name` and `Clinic.Name` to `clinic_name`. -/
theorem C2_visit_slots (env : Env) (c sv : Int) (fd td : String) (cl dr : Option Int)
    (s : St) (days : List AppointmentDay) (s'' : St) (b : Json) (groups : List Json)
    (h : get_visits env c sv fd td cl dr s = Except.ok (days, s''))
    (hb : lastBody s'' = some b)
    (hg : b.getField "AgregateAvailableVisitTerms" = some (Json.arr groups)) :
    (∀ (i : Nat) (hgi : i < groups.length) (hdi : i < days.length) (slots : List Json),
      (groups.get ⟨i, hgi⟩).getField "AvailableVisitsTermPresentation"
        = some (Json.arr slots) →
      (days.get ⟨i, hdi⟩).visits.length = slots.length ∧
      ∀ (k : Nat) (hks : k < slots.length) (hkv : k < (days.get ⟨i, hdi⟩).visits.length),
        normalizeSlot (slots.get ⟨k, hks⟩) = some ((days.get ⟨i, hdi⟩).visits.get ⟨k, hkv⟩)) ∧
    (∀ (j : Json) (slot : AppointmentSlot), normalizeSlot j = some slot →
      j.getField "FormattedVisitHour" = some slot.time ∧
      (j.getField "Doctor").bind (fun d => d.getField "Name") = some slot.doctor_name ∧
      (j.getField "Clinic").bind (fun c => c.getField "Name") = some slot.clinic_name) := by
  obtain ⟨t, hga, hst, hnv, hs''⟩ := get_visits_ok h
  subst hs''
  rw [lastBody_stAfterSearch] at hb
  injection hb with hb1
  subst hb1
  have hmap := normalizeVisits_groups hg hnv
  refine ⟨?_, fun j slot hj => normalizeSlot_fields hj⟩
  intro i hgi hdi slots hslots
  have hday := mapOption_get _ groups days hmap i hgi hdi
  have hsl := normalizeDay_slots hslots hday
  exact ⟨mapOption_length _ slots _ hsl,
    fun k hks hkv => mapOption_get _ slots _ hsl k hks hkv⟩

/-- Witness for C2: the demo run's first day has exactly one slot, whose source
fields map to the record fields. -/
theorem C2_visit_slots_witness :
    (demoVisitsDays.getD 0 ⟨"", []⟩).visits.length = 1 ∧
    demoSlot1.getField "FormattedVisitHour" = some (Json.str "09:00") ∧
    (demoSlot1.getField "Doctor").bind (fun d => d.getField "Name")
      = some (Json.str "Dr A") ∧
    (demoSlot1.getField "Clinic").bind (fun c => c.getField "Name")
      = some (Json.str "Clinic A") := by
  have h := C2_visit_slots demoEnv 1 2 "2024-03-01" "2024-03-02" none none st0
    demoVisitsDays demoVisitsSt demoSearchBody [demoGroup1, demoGroup2] rfl rfl rfl
  have h1 := (h.1 0 (by decide) (by decide) [demoSlot1] rfl).1
  have h2 := h.2 demoSlot1 ⟨Json.str "09:00", Json.str "Dr A", Json.str "Clinic A"⟩ rfl
  exact ⟨h1, h2.1, h2.2.1, h2.2.2⟩

/-- Claim C3: for every successful discovery call, the returned list has the
same length as the corresponding upstream array (`Cities`, `Services`,
`Clinics`), and the pair at each position is exactly that element's `Id` and
`Name`, in upstream order. -/
theorem C3_discovery_pairs (env : Env) :
    (∀ (s : St) (v : List (Json × Json)) (s'' : St) (b : Json) (xs : List Json),
      get_cities env s = Except.ok (v, s'') → lastBody s'' = some b →
      b.getField "Cities" = some (Json.arr xs) →
      v.length = xs.length ∧
      ∀ (i : Nat) (hx : i < xs.length) (hv : i < v.length),
        projectIdName (xs.get ⟨i, hx⟩) = some (v.get ⟨i, hv⟩)) ∧
    (∀ (cid : Int) (s : St) (v : List (Json × Json)) (s'' : St) (b : Json) (xs : List Json),
      get_services env cid s = Except.ok (v, s'') → lastBody s'' = some b →
      b.getField "Services" = some (Json.arr xs) →
      v.length = xs.length ∧
      ∀ (i : Nat) (hx : i < xs.length) (hv : i < v.length),
        projectIdName (xs.get ⟨i, hx⟩) = some (v.get ⟨i, hv⟩)) ∧
    (∀ (cid : Int) (s : St) (v : List (Json × Json)) (s'' : St) (b : Json) (xs : List Json),
      get_clinics env cid s = Except.ok (v, s'') → lastBody s'' = some b →
      b.getField "Clinics" = some (Json.arr xs) →
      v.length = xs.length ∧
      ∀ (i : Nat) (hx : i < xs.length) (hv : i < v.length),
        projectIdName (xs.get ⟨i, hx⟩) = some (v.get ⟨i, hv⟩)) ∧
    (∀ (j : Json) (p : Json × Json), projectIdName j = some p →
      j.getField "Id" = some p.1 ∧ j.getField "Name" = some p.2) := by
  refine ⟨?_, ?_, ?_, fun j p hp => projectIdName_fields hp⟩
  · intro s v s'' b xs h hb hx
    obtain ⟨t, hga, hst, hext, hs''⟩ := get_cities_ok h
    subst hs''
    rw [lastBody_stAfterFilter] at hb
    injection hb with hb1
    subst hb1
    have hmap := extractIdNamePairs_pairs hx hext
    exact ⟨mapOption_length _ xs v hmap, fun i hxi hvi => mapOption_get _ xs v hmap i hxi hvi⟩
  · intro cid s v s'' b xs h hb hx
    obtain ⟨t, hga, hst, hext, hs''⟩ := get_services_ok h
    subst hs''
    rw [lastBody_stAfterFilter] at hb
    injection hb with hb1
    subst hb1
    have hmap := extractIdNamePairs_pairs hx hext
    exact ⟨mapOption_length _ xs v hmap, fun i hxi hvi => mapOption_get _ xs v hmap i hxi hvi⟩
  · intro cid s v s'' b xs h hb hx
    obtain ⟨t, hga, hst, hext, hs''⟩ := get_clinics_ok h
    subst hs''
    rw [lastBody_stAfterFilter] at hb
    injection hb with hb1
    subst hb1
    have hmap := extractIdNamePairs_pairs hx hext
    exact ⟨mapOption_length _ xs v hmap, fun i hxi hvi => mapOption_get _ xs v hmap i hxi hvi⟩

/-- Witness for C3: the demo `get_cities` run returns one pair, projected from
the single upstream city element's `Id`/`Name`. -/
theorem C3_discovery_pairs_witness :
    demoCities.length = 1 ∧
    demoCity.getField "Id" = some (Json.num 1) ∧
    demoCity.getField "Name" = some (Json.str "Warszawa") := by
  have h := C3_discovery_pairs demoEnv
  have h1 := (h.1 st0 demoCities demoCitiesSt demoFilterBody [demoCity] rfl rfl rfl).1
  obtain ⟨hid, hname⟩ := h.2.2.2 demoCity (Json.num 1, Json.str "Warszawa") rfl
  exact ⟨h1, hid, hname⟩

/-- Claim C4: response validation raises an error carrying exactly the parsed
JSON body iff the status code is not exactly 200, with no distinction between
status subranges, and a status-200 response passes regardless of its body. -/
theorem C4_validate_iff (r : Response) :
    (validate_response r = Except.error (PyErr.luxmed r.body) ↔ r.status ≠ 200) ∧
    (validate_response r = Except.ok () ↔ r.status = 200) := by
  unfold validate_response
  by_cases hst : r.status = 200
  · simp [hst]
  · simp [hst]

/-- Witness for C4: a 404 response fails validation with its own body as the
payload, and a 200 response passes. -/
theorem C4_validate_iff_witness :
    validate_response ⟨404, Json.null⟩ = Except.error (PyErr.luxmed Json.null) ∧
    validate_response ⟨200, Json.str "anything"⟩ = Except.ok () :=
  ⟨(C4_validate_iff ⟨404, Json.null⟩).1.mpr (by decide),
   (C4_validate_iff ⟨200, Json.str "anything"⟩).2.mpr rfl⟩

/-- Claim C10: `doctor_id` has no effect on `get_visits` — two calls differing
only in `doctor_id` issue identical requests and return identical results. -/
theorem C10_doctor_id_no_effect (env : Env) (c sv : Int) (fd td : String)
    (cl d1 d2 : Option Int) (s : St) :
    get_visits env c sv fd td cl d1 s = get_visits env c sv fd td cl d2 s := rfl

/-- The query-parameter keys of every request recorded by a successful run. -/
def searchParamKeys (r : Except PyErr (List AppointmentDay × St)) : List (List String) :=
  match r with
  | Except.ok (_, s'') => s''.trace.map (fun e => e.1.params.map Prod.fst)
  | Except.error _ => []

/-- Counterexample to claim C5 as stated: a `get_visits` call with
`doctor_id = some 7` issues a search request whose query-parameter keys are
exactly the five below — `filter.doctorId` is not among them, so the doctor id
filter is not passed at all (rather than passed with a null value). -/
theorem C5_doctor_param_missing :
    searchParamKeys (get_visits demoEnv 1 2 "2024-03-01" "2024-03-02" none (some 7) st0) =
      [[], ["filter.cityId", "filter.serviceId", "filter.clinicId",
            "filter.fromDate", "filter.toDate"]] ∧
    "filter.doctorId" ∉
      ["filter.cityId", "filter.serviceId", "filter.clinicId",
       "filter.fromDate", "filter.toDate"] :=
  ⟨rfl, by decide⟩

/-- Claim C5 (amended): the visit-search GET passes city id, service id,
clinic id, from-date and to-date as query parameters — an unset clinic id is
passed with a null value rather than omitted — but the doctor id is never
included, even when the caller provides one. -/
theorem C5_search_query_params (env : Env) (c sv : Int) (fd td : String)
    (cl dr : Option Int) (s : St) (v : List AppointmentDay) (s'' : St)
    (h : get_visits env c sv fd td cl dr s = Except.ok (v, s'')) :
    (s''.trace.drop s.trace.length).map (fun e => e.1.params) =
      [[], searchParams c sv fd td cl] ∧
    (searchParams c sv fd td cl).map Prod.fst =
      ["filter.cityId", "filter.serviceId", "filter.clinicId",
       "filter.fromDate", "filter.toDate"] ∧
    ("filter.clinicId", pyOptInt cl) ∈ searchParams c sv fd td cl ∧
    "filter.doctorId" ∉
      ["filter.cityId", "filter.serviceId", "filter.clinicId",
       "filter.fromDate", "filter.toDate"] := by
  obtain ⟨t, hga, hst, hnv, hs''⟩ := get_visits_ok h
  subst hs''
  refine ⟨?_, rfl, ?_, by decide⟩
  · rw [drop_stAfterSearch]
    rfl
  · simp [searchParams]

/-- Witness for C5 (amended): the demo visit search with an unset clinic id. -/
theorem C5_search_query_params_witness :
    (demoVisitsSt.trace.drop st0.trace.length).map (fun e => e.1.params) =
      [[], searchParams 1 2 "2024-03-01" "2024-03-02" none] ∧
    (searchParams 1 2 "2024-03-01" "2024-03-02" none).map Prod.fst =
      ["filter.cityId", "filter.serviceId", "filter.clinicId",
       "filter.fromDate", "filter.toDate"] ∧
    ("filter.clinicId", pyOptInt none) ∈ searchParams 1 2 "2024-03-01" "2024-03-02" none ∧
    "filter.doctorId" ∉
      ["filter.cityId", "filter.serviceId", "filter.clinicId",
       "filter.fromDate", "filter.toDate"] :=
  C5_search_query_params demoEnv 1 2 "2024-03-01" "2024-03-02" none none st0
    demoVisitsDays demoVisitsSt rfl

theorem tokenUrl_ne_filterUrl : ¬ tokenUrl = filterUrl := by decide

theorem tokenUrl_ne_searchUrl : ¬ tokenUrl = searchUrl := by decide

theorem filterUrl_ne_searchUrl : ¬ filterUrl = searchUrl := by decide

theorem versionOk_token (env : Env) (b : List (String × String)) :
    VersionOk (tokenRequest env b) :=
  ⟨fun hu => absurd hu tokenUrl_ne_filterUrl, fun hu => absurd hu tokenUrl_ne_searchUrl⟩

theorem versionOk_filter (env : Env) (t : String) (ps : List (String × PyVal)) :
    VersionOk (filterRequest (headersFor env "3.0" t) ps) :=
  ⟨fun _ => by simp [filterRequest, headersFor],
   fun hu => absurd hu filterUrl_ne_searchUrl⟩

theorem versionOk_search (env : Env) (t : String) (ps : List (String × PyVal)) :
    VersionOk (searchRequest (headersFor env "2.0" t) ps) :=
  ⟨fun hu => absurd hu (fun he => filterUrl_ne_searchUrl he.symm),
   fun _ => by simp [searchRequest, headersFor]⟩

theorem bearerOk_pair {e1 e2 : Request × Response} {t : String}
    (hf : e1.2.body.getField "access_token" = some (Json.str t))
    (hm : ("Authorization", "Bearer " ++ t) ∈ e2.1.headers) :
    bearerOk [e1, e2] := by
  show (match e1.2.body.getField "access_token" with
    | some (Json.str u) => ("Authorization", "Bearer " ++ u) ∈ e2.1.headers
    | _ => False)
  rw [hf]
  exact hm

/-- Claim C6: every request a successful operation sends to the discovery
endpoint carries the header `Api-Version: 3.0`, and every request sent to the
visit-search endpoint carries `Api-Version: 2.0`. -/
theorem C6_api_version_headers (env : Env) (s : St) :
    (∀ (v : List (Json × Json)) (s' : St), get_cities env s = Except.ok (v, s') →
      ∀ r ∈ (s'.trace.drop s.trace.length).map (fun e => e.1), VersionOk r) ∧
    (∀ (cid : Int) (v : List (Json × Json)) (s' : St),
      get_services env cid s = Except.ok (v, s') →
      ∀ r ∈ (s'.trace.drop s.trace.length).map (fun e => e.1), VersionOk r) ∧
    (∀ (cid : Int) (v : List (Json × Json)) (s' : St),
      get_clinics env cid s = Except.ok (v, s') →
      ∀ r ∈ (s'.trace.drop s.trace.length).map (fun e => e.1), VersionOk r) ∧
    (∀ (c sv : Int) (fd td : String) (cl dr : Option Int)
      (v : List AppointmentDay) (s' : St),
      get_visits env c sv fd td cl dr s = Except.ok (v, s') →
      ∀ r ∈ (s'.trace.drop s.trace.length).map (fun e => e.1), VersionOk r) := by
  refine ⟨?_, ?_, ?_, ?_⟩
  · intro v s' h r hr
    obtain ⟨t, hga, hst, hext, hs'⟩ := get_cities_ok h
    subst hs'
    rw [drop_stAfterFilter] at hr
    simp only [List.map_cons, List.map_nil, List.mem_cons, List.not_mem_nil, or_false] at hr
    rcases hr with h1 | h1
    · subst h1; exact versionOk_token env _
    · subst h1; exact versionOk_filter env t _
  · intro cid v s' h r hr
    obtain ⟨t, hga, hst, hext, hs'⟩ := get_services_ok h
    subst hs'
    rw [drop_stAfterFilter] at hr
    simp only [List.map_cons, List.map_nil, List.mem_cons, List.not_mem_nil, or_false] at hr
    rcases hr with h1 | h1
    · subst h1; exact versionOk_token env _
    · subst h1; exact versionOk_filter env t _
  · intro cid v s' h r hr
    obtain ⟨t, hga, hst, hext, hs'⟩ := get_clinics_ok h
    subst hs'
    rw [drop_stAfterFilter] at hr
    simp only [List.map_cons, List.map_nil, List.mem_cons, List.not_mem_nil, or_false] at hr
    rcases hr with h1 | h1
    · subst h1; exact versionOk_token env _
    · subst h1; exact versionOk_filter env t _
  · intro c sv fd td cl dr v s' h r hr
    obtain ⟨t, hga, hst, hnv, hs'⟩ := get_visits_ok h
    subst hs'
    rw [drop_stAfterSearch] at hr
    simp only [List.map_cons, List.map_nil, List.mem_cons, List.not_mem_nil, or_false] at hr
    rcases hr with h1 | h1
    · subst h1; exact versionOk_token env _
    · subst h1; exact versionOk_search env t _

/-- Witness for C6: the discovery request issued by the demo `get_cities` run
carries `Api-Version: 3.0`. -/
theorem C6_api_version_headers_witness :
    ("Api-Version", "3.0") ∈ demoFilterReqIssued.headers := by
  have h := (C6_api_version_headers demoEnv st0).1 demoCities demoCitiesSt rfl
  have hm : demoFilterReqIssued ∈
      (demoCitiesSt.trace.drop st0.trace.length).map (fun e => e.1) := by decide
  exact (h demoFilterReqIssued hm).1 rfl

/-- Claim C8: every public operation performs exactly one POST to the token
endpoint followed by exactly one GET to its data endpoint, in that order, with
the bearer token of the data request taken from this very operation's token
response (fresh per call, two fresh uuid draws consumed, nothing cached). -/
theorem C8_auth_then_data (env : Env) (s : St) :
    (∀ (v : List (Json × Json)) (s' : St), get_cities env s = Except.ok (v, s') →
      s'.trace.length = s.trace.length + 2 ∧
      traceMethodUrl (s'.trace.drop s.trace.length) = [("POST", tokenUrl), ("GET", filterUrl)] ∧
      bearerOk (s'.trace.drop s.trace.length) ∧
      s'.next = s.next + 2) ∧
    (∀ (cid : Int) (v : List (Json × Json)) (s' : St),
      get_services env cid s = Except.ok (v, s') →
      s'.trace.length = s.trace.length + 2 ∧
      traceMethodUrl (s'.trace.drop s.trace.length) = [("POST", tokenUrl), ("GET", filterUrl)] ∧
      bearerOk (s'.trace.drop s.trace.length) ∧
      s'.next = s.next + 2) ∧
    (∀ (cid : Int) (v : List (Json × Json)) (s' : St),
      get_clinics env cid s = Except.ok (v, s') →
      s'.trace.length = s.trace.length + 2 ∧
      traceMethodUrl (s'.trace.drop s.trace.length) = [("POST", tokenUrl), ("GET", filterUrl)] ∧
      bearerOk (s'.trace.drop s.trace.length) ∧
      s'.next = s.next + 2) ∧
    (∀ (c sv : Int) (fd td : String) (cl dr : Option Int)
      (v : List AppointmentDay) (s' : St),
      get_visits env c sv fd td cl dr s = Except.ok (v, s') →
      s'.trace.length = s.trace.length + 2 ∧
      traceMethodUrl (s'.trace.drop s.trace.length) = [("POST", tokenUrl), ("GET", searchUrl)] ∧
      bearerOk (s'.trace.drop s.trace.length) ∧
      s'.next = s.next + 2) := by
  refine ⟨?_, ?_, ?_, ?_⟩
  · intro v s' h
    obtain ⟨t, hga, hst, hext, hs'⟩ := get_cities_ok h
    obtain ⟨hts, hfield, _⟩ := get_access_token_ok hga
    subst hs'
    refine ⟨by simp [stAfterFilter, stAfterToken], ?_, ?_, rfl⟩
    · rw [drop_stAfterFilter]; rfl
    · rw [drop_stAfterFilter]
      exact bearerOk_pair hfield (List.mem_cons_self _ _)
  · intro cid v s' h
    obtain ⟨t, hga, hst, hext, hs'⟩ := get_services_ok h
    obtain ⟨hts, hfield, _⟩ := get_access_token_ok hga
    subst hs'
    refine ⟨by simp [stAfterFilter, stAfterToken], ?_, ?_, rfl⟩
    · rw [drop_stAfterFilter]; rfl
    · rw [drop_stAfterFilter]
      exact bearerOk_pair hfield (List.mem_cons_self _ _)
  · intro cid v s' h
    obtain ⟨t, hga, hst, hext, hs'⟩ := get_clinics_ok h
    obtain ⟨hts, hfield, _⟩ := get_access_token_ok hga
    subst hs'
    refine ⟨by simp [stAfterFilter, stAfterToken], ?_, ?_, rfl⟩
    · rw [drop_stAfterFilter]; rfl
    · rw [drop_stAfterFilter]
      exact bearerOk_pair hfield (List.mem_cons_self _ _)
  · intro c sv fd td cl dr v s' h
    obtain ⟨t, hga, hst, hnv, hs'⟩ := get_visits_ok h
    obtain ⟨hts, hfield, _⟩ := get_access_token_ok hga
    subst hs'
    refine ⟨by simp [stAfterSearch, stAfterToken], ?_, ?_, rfl⟩
    · rw [drop_stAfterSearch]; rfl
    · rw [drop_stAfterSearch]
      exact bearerOk_pair hfield (List.mem_cons_self _ _)

/-- Witness for C8: the demo `get_cities` run makes exactly the token POST and
one discovery GET, authorised with the token just returned. -/
theorem C8_auth_then_data_witness :
    demoCitiesSt.trace.length = st0.trace.length + 2 ∧
    traceMethodUrl (demoCitiesSt.trace.drop st0.trace.length) =
      [("POST", tokenUrl), ("GET", filterUrl)] ∧
    bearerOk (demoCitiesSt.trace.drop st0.trace.length) ∧
    demoCitiesSt.next = st0.next + 2 :=
  (C8_auth_then_data demoEnv st0).1 demoCities demoCitiesSt rfl

/-- Counterexample to claim C7 as stated: the code has a single exception
class — a failing token call and a failing data call raise literally the same
error value (same kind, same payload), so no distinct `AuthenticationError` /
`ApiError` kinds exist. -/
theorem C7_single_exception_class :
    get_cities failAuthEnv st0 = Except.error (PyErr.luxmed (Json.str "boom")) ∧
    get_cities failDataEnv st0 = Except.error (PyErr.luxmed (Json.str "boom")) ∧
    (match get_cities failAuthEnv st0, get_cities failDataEnv st0 with
     | Except.error e1, Except.error e2 => e1 = e2
     | _, _ => False) :=
  ⟨rfl, rfl, rfl⟩

/-- Claim C7 (amended): the program has exactly one error kind,
`LuxmedApiException`; a non-200 response from the token endpoint and a non-200
response from any other endpoint — the reservation-filter endpoint queried by
all three discovery operations, or the visit-search endpoint — raise that same
kind, carrying the upstream parsed JSON body verbatim. -/
theorem C7_error_payloads (env : Env) (s : St) :
    ((tokenResponse env s).status ≠ 200 →
      get_access_token env s = Except.error (PyErr.luxmed (tokenResponse env s).body) ∧
      get_cities env s = Except.error (PyErr.luxmed (tokenResponse env s).body)) ∧
    (∀ t : String, get_access_token env s = Except.ok (t, stAfterToken env s) →
      ((filterResp env t []).status ≠ 200 →
        get_cities env s = Except.error (PyErr.luxmed (filterResp env t []).body)) ∧
      (∀ cid : Int,
        (filterResp env t [("filter.cityId", PyVal.vint cid)]).status ≠ 200 →
        get_services env cid s = Except.error
          (PyErr.luxmed (filterResp env t [("filter.cityId", PyVal.vint cid)]).body) ∧
        get_clinics env cid s = Except.error
          (PyErr.luxmed (filterResp env t [("filter.cityId", PyVal.vint cid)]).body)) ∧
      (∀ (c sv : Int) (fd td : String) (cl dr : Option Int),
        (searchResp env t (searchParams c sv fd td cl)).status ≠ 200 →
        get_visits env c sv fd td cl dr s = Except.error
          (PyErr.luxmed (searchResp env t (searchParams c sv fd td cl)).body))) := by
  constructor
  · intro hst
    have hval : validate_response (tokenResponse env s) =
        Except.error (PyErr.luxmed (tokenResponse env s).body) := by
      unfold validate_response
      rw [if_pos hst]
    have hga : get_access_token env s =
        Except.error (PyErr.luxmed (tokenResponse env s).body) := by
      unfold get_access_token
      rw [hval]
    refine ⟨hga, ?_⟩
    simp only [get_cities, send_request_for_filters, prepare_headers, hga]
  · intro t hga
    have hph : prepare_headers env "3.0" s =
        Except.ok (headersFor env "3.0" t, stAfterToken env s) := by
      unfold prepare_headers
      rw [hga]
    have hph2 : prepare_headers env "2.0" s =
        Except.ok (headersFor env "2.0" t, stAfterToken env s) := by
      unfold prepare_headers
      rw [hga]
    refine ⟨?_, ?_, ?_⟩
    · intro hst
      unfold filterResp at hst
      have hval : validate_response
          (env.transport (filterRequest (headersFor env "3.0" t) [])) =
          Except.error (PyErr.luxmed
            (env.transport (filterRequest (headersFor env "3.0" t) [])).body) := by
        unfold validate_response
        rw [if_pos hst]
      simp only [get_cities, send_request_for_filters, hph, hval]
      rfl
    · intro cid hst
      unfold filterResp at hst
      have hval : validate_response (env.transport
          (filterRequest (headersFor env "3.0" t) [("filter.cityId", PyVal.vint cid)])) =
          Except.error (PyErr.luxmed (env.transport
            (filterRequest (headersFor env "3.0" t)
              [("filter.cityId", PyVal.vint cid)])).body) := by
        unfold validate_response
        rw [if_pos hst]
      constructor
      · simp only [get_services, send_request_for_filters, hph, hval]
        rfl
      · simp only [get_clinics, send_request_for_filters, hph, hval]
        rfl
    · intro c sv fd td cl dr hst
      unfold searchResp at hst
      have hval : validate_response (env.transport
          (searchRequest (headersFor env "2.0" t) (searchParams c sv fd td cl))) =
          Except.error (PyErr.luxmed (env.transport
            (searchRequest (headersFor env "2.0" t) (searchParams c sv fd td cl))).body) := by
        unfold validate_response
        rw [if_pos hst]
      simp only [get_visits, hph2, hval]
      rfl

/-- Witness for C7 (amended): concrete failing environments — an auth failure
surfaces the token response's payload, and a failing visit-search data call
surfaces the search response's payload, through the same single error kind. -/
theorem C7_error_payloads_witness :
    (get_access_token failAuthEnv st0 =
      Except.error (PyErr.luxmed (tokenResponse failAuthEnv st0).body) ∧
    get_cities failAuthEnv st0 =
      Except.error (PyErr.luxmed (tokenResponse failAuthEnv st0).body)) ∧
    get_cities failDataEnv st0 =
      Except.error (PyErr.luxmed (filterResp failDataEnv "tok" []).body) ∧
    get_visits failDataEnv 1 2 "2024-03-01" "2024-03-02" none none st0 =
      Except.error (PyErr.luxmed
        (searchResp failDataEnv "tok" (searchParams 1 2 "2024-03-01" "2024-03-02" none)).body) :=
  ⟨(C7_error_payloads failAuthEnv st0).1 (by decide),
   ((C7_error_payloads failDataEnv st0).2 "tok" rfl).1 (by decide),
   ((C7_error_payloads failDataEnv st0).2 "tok" rfl).2.2 1 2 "2024-03-01" "2024-03-02"
     none none (by decide)⟩

/-- Claim C9: the authentication body's `account_id` is at most 35 characters,
and — under the model of `uuid.uuid4()` as a stream of draws no two of which
collide (even on their first 35 characters) — two consecutive authentications,
which consume uuid draws `k, k+1` and then `k+2, k+3`, produce different
`account_id` and `client_id` values. -/
theorem C9_fresh_identifiers (env : Env) (k : Nat) (s s' : St) (t : String)
    (h1 : take35 (env.uuid k) ≠ take35 (env.uuid (k + 2)))
    (h2 : env.uuid (k + 1) ≠ env.uuid (k + 3))
    (h3 : s.next = k)
    (h4 : get_access_token env s = Except.ok (t, s')) :
    accountIdOf (authBody env k) = some (take35 (env.uuid k)) ∧
    clientIdOf (authBody env k) = some (env.uuid (k + 1)) ∧
    (take35 (env.uuid k)).length ≤ 35 ∧
    accountIdOf (authBody env k) ≠ accountIdOf (authBody env (k + 2)) ∧
    clientIdOf (authBody env k) ≠ clientIdOf (authBody env (k + 2)) ∧
    s'.next = k + 2 := by
  obtain ⟨hst, hfield, hs'⟩ := get_access_token_ok h4
  refine ⟨rfl, rfl, ?_, ?_, ?_, ?_⟩
  · show ((env.uuid k).data.take 35).length ≤ 35
    rw [List.length_take]
    exact Nat.min_le_left 35 _
  · intro heq
    exact h1 (Option.some.inj heq)
  · intro heq
    exact h2 (Option.some.inj heq)
  · rw [hs']
    show s.next + 2 = k + 2
    rw [h3]

/-- Witness for C9: the demo environment's uuid stream draws "0", "1", "2",
"3", giving distinct identifiers and a counter advanced by two. -/
theorem C9_fresh_identifiers_witness :
    accountIdOf (authBody demoEnv 0) = some (take35 (demoEnv.uuid 0)) ∧
    clientIdOf (authBody demoEnv 0) = some (demoEnv.uuid (0 + 1)) ∧
    (take35 (demoEnv.uuid 0)).length ≤ 35 ∧
    accountIdOf (authBody demoEnv 0) ≠ accountIdOf (authBody demoEnv (0 + 2)) ∧
    clientIdOf (authBody demoEnv 0) ≠ clientIdOf (authBody demoEnv (0 + 2)) ∧
    demoTokSt.next = 0 + 2 :=
  C9_fresh_identifiers demoEnv 0 st0 demoTokSt "tok" (by decide) (by decide) rfl rfl

end Luxmed
